import Mathlib

/-!
Verification development for the Healy repository (a Streamlit chat
front-end with Cosmos-DB authentication and an Azure OpenAI adapter).

The Python sources are shallowly embedded:

* Python values that flow through dictionaries (user documents, session
  entries, CSV metadata) are modelled by the inductive type `PyVal`;
  Python `dict`s become association lists (`Dict`).
* External services (Cosmos queries, bcrypt, `pandas.read_csv`, the chat
  completion endpoint, `json.loads`) are parameters: each call site takes
  the outcome of the call as an `Except`/`Option` argument, where
  `Except.error` models a raised exception.
* `st.session_state` becomes the record `SessionState`; a field of type
  `Option (Option A)` distinguishes the key being absent (`Option.none`)
  from the key holding Python `None` (`some Option.none`).
* One full Streamlit script re-run (`app.py` top to bottom, with
  `st.rerun()` aborting the rest of the script) is the function `run`;
  reachable session states are the inductive predicate `Reachable`.
-/

/-- Model of a Python value as stored in documents and session entries. -/
inductive PyVal where
  | none
  | str (s : String)
  | int (n : Int)
  | float (q : ℚ)
  | list (xs : List PyVal)
  | dict (fields : List (String × PyVal))

/-- Python dictionaries with string keys, as association lists. -/
abbrev Dict := List (String × PyVal)

mutual
/-- Boolean equality of Python values (models `==` and the Cosmos SQL
`=` comparison on document fields). -/
def pvBeq : PyVal → PyVal → Bool
  | .none, .none => true
  | .str a, .str b => a == b
  | .int a, .int b => a == b
  | .float a, .float b => a == b
  | .list xs, .list ys => pvBeqList xs ys
  | .dict fs, .dict gs => pvBeqFields fs gs
  | _, _ => false

/-- Boolean equality on lists of Python values. -/
def pvBeqList : List PyVal → List PyVal → Bool
  | [], [] => true
  | x :: xs, y :: ys => pvBeq x y && pvBeqList xs ys
  | _, _ => false

/-- Boolean equality on dictionary entry lists. -/
def pvBeqFields : List (String × PyVal) → List (String × PyVal) → Bool
  | [], [] => true
  | (k, v) :: fs, (k', v') :: gs => k == k' && pvBeq v v' && pvBeqFields fs gs
  | _, _ => false
end

/-- Dictionary lookup: `d.get(k)` in Python, `Option.none` when the key
is absent. -/
def dget : Dict → String → Option PyVal
  | [], _ => Option.none
  | (k', v) :: rest, k => if k' = k then some v else dget rest k

/-- Lookup with Python `dict.get` defaulting to `None`. -/
def dgetN (d : Dict) (k : String) : PyVal :=
  (dget d k).getD PyVal.none

/-- Lookup with an explicit default: `d.get(k, dflt)`. -/
def dgetD (d : Dict) (k : String) (dflt : PyVal) : PyVal :=
  (dget d k).getD dflt

/-- Key membership: `k in d`. -/
def hasKey (d : Dict) (k : String) : Bool :=
  (dget d k).isSome

/-- Dictionary assignment `d[k] = v` (replace or append). -/
def dset : Dict → String → PyVal → Dict
  | [], k, v => [(k, v)]
  | (k', v') :: rest, k, v =>
      if k' = k then (k, v) :: rest else (k', v') :: dset rest k v

theorem dget_of_not_hasKey {d : Dict} {k : String} (h : hasKey d k = false) :
    dget d k = Option.none := by
  unfold hasKey at h
  cases hd : dget d k with
  | none => rfl
  | some v => rw [hd] at h; simp at h

/-! ### bcrypt layer (`app.py` lines 41-45)

`bcrypt` is an external library: it is modelled as a structure bundling
`hashpw`, `checkpw` and the round-trip law stated in the bcrypt
documentation (`checkpw(pw, hashpw(pw, salt))` succeeds).  `checkpw`
returns in `Except` because the real call can raise (e.g. `ValueError`
on a malformed salt).  Byte strings are modelled as lists of code points
(`str.encode` is injective; the byte-level layout is irrelevant here). -/

/-- Python `bytes`, abstracted to code-point lists. -/
abbrev Bytes := List Nat

/-- Model of `str.encode` as used by `hash_password` / `check_password`. -/
def encodeUtf8 (s : String) : Bytes :=
  s.data.map (fun c => c.toNat)

/-- Interface of the external bcrypt library together with its documented
round-trip contract. -/
structure Bcrypt where
  hashpw : Bytes → Bytes → Bytes
  checkpw : Bytes → Bytes → Except String Bool
  roundtrip : ∀ pw salt, checkpw pw (hashpw pw salt) = .ok true

/-- Embeds `hash_password` (app.py line 41): the salt produced by
`bcrypt.gensalt()` is passed in explicitly. -/
def hash_password (bc : Bcrypt) (salt : Bytes) (password : String) : Bytes :=
  bc.hashpw (encodeUtf8 password) salt

/-- Embeds `check_password` (app.py line 44). -/
def check_password (bc : Bcrypt) (password : String) (hashed : Bytes) :
    Except String Bool :=
  bc.checkpw (encodeUtf8 password) hashed

/-! ### Registration (`app.py` lines 47-91) -/

/-- Cosmos query text used by `register_user` (app.py line 51). -/
def registerQueryText : String :=
  "SELECT * FROM c WHERE c.username = @username OR c.email = @email"

/-- Cosmos query text used by `login_user` (app.py line 157). -/
def loginQueryText : String :=
  "SELECT * FROM c WHERE c.email = @email"

/-- Cosmos query text used by cookie restoration (app.py line 223). -/
def cookieRestoreQueryText : String :=
  "SELECT * FROM c WHERE c.id = @id"

/-- All query templates the program ever issues against the user
container, in source order. -/
def issuedQueryTexts : List String :=
  [registerQueryText, loginQueryText, cookieRestoreQueryText]

/-- The WHERE predicate of the `register_user` duplicate-check query,
evaluated on one document: `c.username = @username OR c.email = @email`. -/
def matchesRegisterQuery (username email : String) (d : Dict) : Bool :=
  pvBeq (dgetN d "username") (.str username) ||
    pvBeq (dgetN d "email") (.str email)

/-- The user document built by `register_user` (app.py lines 70-85);
`password_hash` arrives already decoded to a string. -/
def mkUserDoc (newId username email password_hash birthdate : String)
    (weight height : ℚ) (created_at : String) : Dict :=
  [("id", .str newId),
   ("username", .str username),
   ("email", .str email),
   ("password_hash", .str password_hash),
   ("birthdate", .str birthdate),
   ("weight", .float weight),
   ("height", .float height),
   ("created_at", .str created_at),
   ("last_login", .none),
   ("health_metrics", .dict
     [("initial_weight", .float weight),
      ("initial_height", .float height),
      ("progress", .list [])])]

/-- The `try` body of `register_user` (app.py lines 49-88).  The database
is the list `db` of documents; the duplicate-check query is evaluated by
filtering `db` with its WHERE clause.  `queryExn`/`createExn` model
exceptions raised by `container.query_items` / `container.create_item`;
`dec` models `bytes.decode`; `newId` is the fresh `uuid4` and
`created_at` the `datetime.utcnow().isoformat()` value.  Returns the
function result paired with the database after the call. -/
def register_body (bc : Bcrypt) (salt : Bytes) (dec : Bytes → String)
    (queryExn createExn : Option String) (newId created_at : String)
    (username email password birthdate : String) (weight height : ℚ)
    (db : List Dict) : Except String (Bool × List Dict) :=
  match queryExn with
  | some e => .error e
  | Option.none =>
    let existing_users := db.filter (matchesRegisterQuery username email)
    if !existing_users.isEmpty then .ok (false, db)
    else
      let password_hash := hash_password bc salt password
      let user_doc := mkUserDoc newId username email (dec password_hash)
        birthdate weight height created_at
      match createExn with
      | some e => .error e
      | Option.none => .ok (true, db ++ [user_doc])

/-- Embeds `register_user` (app.py lines 48-91): any exception escaping
the `try` body is caught, an error is displayed, and `False` is
returned with the database untouched. -/
def register_user (bc : Bcrypt) (salt : Bytes) (dec : Bytes → String)
    (queryExn createExn : Option String) (newId created_at : String)
    (username email password birthdate : String) (weight height : ℚ)
    (db : List Dict) : Bool × List Dict :=
  match register_body bc salt dec queryExn createExn newId created_at
      username email password birthdate weight height db with
  | .ok r => r
  | .error _ => (false, db)

/-! ### CSV processing (`app.py` lines 93-113)

`pandas.read_csv` is external: `process_csv_file` takes its outcome as
an `Except` argument.  A parsed dataframe is modelled with the pieces of
it the code reads: column names, per-column dtype strings, rows of
values, the `describe()` table (a pandas computation, carried as data)
and nothing else. -/

/-- Model of a parsed `pandas` dataframe. -/
structure DataFrame where
  cols : List String
  dtypes : List (String × String)
  rows : List (List PyVal)
  describeTable : List (String × PyVal)

/-- Python `None`/`NaN` test used for `df.isnull()`. -/
def pvIsNone : PyVal → Bool
  | .none => true
  | _ => false

/-- Model of `df.empty` (true when an axis has length zero). -/
def dfEmpty (df : DataFrame) : Bool :=
  df.rows.isEmpty || df.cols.isEmpty

/-- The `csv_info` dictionary built by `process_csv_file`
(app.py lines 100-108); the tuple `df.shape` is rendered as a two
element list. -/
def csvInfoOf (filename : String) (df : DataFrame) : Dict :=
  [("filename", .str filename),
   ("shape", .list [.int df.rows.length, .int df.cols.length]),
   ("columns", .list (df.cols.map .str)),
   ("dtypes", .dict (df.dtypes.map (fun p => (p.1, .str p.2)))),
   ("head", .list ((df.rows.take 5).map (fun r => .dict (df.cols.zip r)))),
   ("null_counts", .dict (df.cols.mapIdx (fun i c =>
     (c, .int ((df.rows.countP (fun r => pvIsNone (r.getD i PyVal.none))) : Int))))),
   ("summary_stats", if dfEmpty df then .dict [] else .dict df.describeTable)]

/-- Embeds `process_csv_file` (app.py lines 93-113): on any exception in
the `try` body (modelled by `read = .error e`) the error is displayed
and `(None, None)` is returned; otherwise the dataframe and its
`csv_info` dictionary are returned. -/
def process_csv_file (read : Except String DataFrame) (filename : String) :
    Option DataFrame × Option Dict :=
  match read with
  | .error _ => (Option.none, Option.none)
  | .ok df => (some df, some (csvInfoOf filename df))

/-! ### Chat completion adapter (`utils/azure_handler.py`, `modules/healy.py`) -/

/-- One chat message, as the dictionaries built in `healy.py`. -/
structure ChatMessage where
  role : String
  content : String

/-- One element of `response.choices`. -/
structure Choice where
  message : ChatMessage

/-- The chat-completion API response object, as read by `get_response`. -/
structure APIResponse where
  choices : List Choice

/-- Embeds `AzureClient.get_response` (azure_handler.py lines 15-24).
The external `chat.completions.create` call is the argument `api`; an
exception anywhere in the `try` body is caught and rendered as
`"Error: " ++ e`.  `response.choices[0]` on an empty list raises
`IndexError`, which the same handler catches. -/
def get_response (api : List ChatMessage → Except String APIResponse)
    (messages : List ChatMessage) : String :=
  match api messages with
  | .error e => "Error: " ++ e
  | .ok r =>
    match r.choices with
    | [] => "Error: list index out of range"
    | c :: _ => c.message.content

/-- The two-message list built by `Healy.generate_response`
(healy.py lines 8-11). -/
def healyMessages (user_input : String) : List ChatMessage :=
  [⟨"system", "You\x27re a professional fitness advisor."⟩,
   ⟨"user", user_input⟩]

/-- Embeds `Healy.generate_response` (healy.py lines 7-12). -/
def healy_generate_response (api : List ChatMessage → Except String APIResponse)
    (user_input : String) : String :=
  get_response api (healyMessages user_input)

/-! ### Session state and cookies (`app.py` lines 155-260) -/

/-- The `st.session_state` entries the program uses.  An outer
`Option.none` means the key is not in `session_state`; `some x` means
the key is present with value `x` (itself optional where the Python
value can be `None`). -/
structure SessionState where
  logged_in : Option Bool
  user : Option (Option Dict)
  messages : Option (List ChatMessage)
  csv_data : Option (Option DataFrame)
  csv_info : Option (Option Dict)
  last_uploaded_file_id : Option (Option String)

/-- Fresh Streamlit session: no key is present yet. -/
def initialSession : SessionState :=
  ⟨Option.none, Option.none, Option.none, Option.none, Option.none, Option.none⟩

/-- The decrypted cookie jar: the value of the `"user"` cookie, when
present. -/
structure CookieJar where
  user : Option String

mutual
/-- Model of `json.dumps`, used when `login_user` writes the `"user"`
cookie.  The claims never inspect this string, so character escaping
inside atoms is elided. -/
def dumpVal : PyVal → String
  | .none => "null"
  | .str s => "\"" ++ s ++ "\""
  | .int n => toString n
  | .float q => toString q
  | .list xs => "[" ++ dumpList xs ++ "]"
  | .dict fs => "\x7b" ++ dumpFields fs ++ "\x7d"

/-- Serialization of a JSON array body. -/
def dumpList : List PyVal → String
  | [] => ""
  | [x] => dumpVal x
  | x :: y :: xs => dumpVal x ++ ", " ++ dumpList (y :: xs)

/-- Serialization of a JSON object body. -/
def dumpFields : List (String × PyVal) → String
  | [] => ""
  | [(k, v)] => "\"" ++ k ++ "\": " ++ dumpVal v
  | (k, v) :: f :: fs =>
      "\"" ++ k ++ "\": " ++ dumpVal v ++ ", " ++ dumpFields (f :: fs)
end

/-- The seven-key user dictionary stored into the session.  The two
literal dictionaries in the source (login, app.py lines 178-190, and
cookie restoration, lines 234-246) are identical, so they share this
definition. -/
def mkUserData (u : Dict) : Dict :=
  [("id", dgetN u "id"),
   ("username", dgetN u "username"),
   ("email", dgetN u "email"),
   ("birthdate", dgetN u "birthdate"),
   ("weight", dgetN u "weight"),
   ("height", dgetN u "height"),
   ("health_metrics", dgetD u "health_metrics" (.dict
     [("initial_weight", dgetN u "weight"),
      ("initial_height", dgetN u "height"),
      ("progress", .list [])]))]

/-- Embeds app.py line 170, where the stored hash is read with
`user.get` defaulting to the empty string and then encoded: a missing
key encodes the empty default, and calling `.encode` on a non-string
value raises. -/
def storedHashBytes (u : Dict) : Except String Bytes :=
  match dget u "password_hash" with
  | Option.none => .ok (encodeUtf8 "")
  | some (.str s) => .ok (encodeUtf8 s)
  | some _ => .error "AttributeError: encode"

/-- The `try` body of `login_user` (app.py lines 156-200).  `query` is
the outcome of the `c.email = @email` Cosmos query, `upsert` the outcome
of `container.upsert_item`, `now` the `datetime.utcnow().isoformat()`
value.  Returns the boolean result with the updated session state and
cookie jar. -/
def login_body (bc : Bcrypt) (query : Except String (List Dict))
    (upsert : Except String Unit) (now : String) (email password : String)
    (st : SessionState) (jar : CookieJar) :
    Except String (Bool × SessionState × CookieJar) :=
  match query with
  | .error e => .error e
  | .ok [] => .ok (false, st, jar)
  | .ok (user :: _) =>
    match storedHashBytes user with
    | .error e => .error e
    | .ok stored_hash =>
      match check_password bc password stored_hash with
      | .error e => .error e
      | .ok false => .ok (false, st, jar)
      | .ok true =>
        let user := dset user "last_login" (.str now)
        match upsert with
        | .error e => .error e
        | .ok _ =>
          let user_data := mkUserData user
          let st' := { st with user := some (some user_data),
                               logged_in := some true }
          let jar' := { jar with user := some (dumpVal (.dict user_data)) }
          .ok (true, st', jar')

/-- Embeds `login_user` (app.py lines 155-203): any exception escaping
the `try` body is caught, an error is displayed, and `False` is
returned with session and cookies untouched. -/
def login_user (bc : Bcrypt) (query : Except String (List Dict))
    (upsert : Except String Unit) (now : String) (email password : String)
    (st : SessionState) (jar : CookieJar) :
    Bool × SessionState × CookieJar :=
  match login_body bc query upsert now email password st jar with
  | .ok r => r
  | .error _ => (false, st, jar)

/-- Embeds the cookie-restoration block (app.py lines 213-260), which
the script runs only when `"logged_in"` is not yet in `session_state`.
`parse` is `json.loads` (`Option.none` models `JSONDecodeError`),
`queryExn` an exception from the `c.id = @id` Cosmos query, `db` the
user container.  All exception paths delete the `"user"` cookie; the
empty-cookie guard (`if user_data_str:`) skips everything without
deleting it. -/
def restoreSession (parse : String → Option Dict) (queryExn : Option String)
    (db : List Dict) (st : SessionState) (jar : CookieJar) :
    SessionState × CookieJar :=
  let st := { st with logged_in := some false, user := some Option.none }
  match jar.user with
  | Option.none => (st, jar)
  | some s =>
    if s = "" then (st, jar)
    else
      match parse s with
      | Option.none => (st, { jar with user := Option.none })
      | some user_data =>
        match dget user_data "id" with
        | Option.none => (st, { jar with user := Option.none })
        | some idv =>
          match queryExn with
          | some _ => (st, { jar with user := Option.none })
          | Option.none =>
            match db.filter (fun d => pvBeq (dgetN d "id") idv) with
            | [] => (st, { jar with user := Option.none })
            | db_user :: _ =>
              ({ st with user := some (some (mkUserData db_user)),
                         logged_in := some true }, jar)

/-! ### One Streamlit script run (`app.py` lines 263-606)

Each widget interaction triggers a full top-to-bottom re-run of the
script; `st.rerun()` aborts the remainder of the run.  A run is modelled
as a sequence of phases, each returning the updated state together with
a flag saying whether `st.rerun()` was reached. -/

/-- An `st.file_uploader` result; `ftype` is the `type` attribute of the
Python object (`type` is reserved in Lean). -/
structure UploadedFile where
  file_id : String
  name : String
  ftype : String
  size : Nat

/-- Python `str(v)` for the values interpolated into chat messages. -/
def pyStr : PyVal → String
  | .none => "None"
  | .str s => s
  | .int n => toString n
  | .float q => toString q
  | v => dumpVal v

/-- Python `v[i]` on a list value (used for the shape entries of `csv_info`). -/
def pvIndex (v : PyVal) (i : Nat) : PyVal :=
  match v with
  | .list xs => xs.getD i .none
  | _ => .none

/-- The greeting appended when `messages` is first created
(app.py line 347). -/
def greetingMsg : String :=
  "Hello! I\x27m your AI fitness advisor. How can I help you today?"

/-- The `csv_summary` chat message built after a successful CSV upload
(app.py lines 484-491). -/
def csvSummaryMsg (info : Dict) : String :=
  let shape := dgetN info "shape"
  let columns := match dgetN info "columns" with
    | .list xs => String.intercalate ", " (xs.map pyStr)
    | _ => ""
  "üìä **CSV File Uploaded**: " ++ pyStr (dgetN info "filename") ++ "\n\n" ++
  "**Data Overview:**\n" ++
  "- Shape: " ++ pyStr (pvIndex shape 0) ++ " rows √ó " ++
    pyStr (pvIndex shape 1) ++ " columns\n" ++
  "- Columns: " ++ columns ++ "\n\n" ++
  "Your CSV data is now loaded! You can ask me questions about this data. For example:\n" ++
  "- \x27Analyze my workout data\x27\n" ++
  "- \x27Show me trends in my fitness metrics\x27\n" ++
  "- \x27Create a summary of my progress based on the CSV\x27"

/-- The user-side note recorded for a non-CSV upload (app.py line 504). -/
def fileInfoMsg (f : UploadedFile) : String :=
  "User uploaded a file: " ++ f.name ++ " (type: " ++ f.ftype ++
    ", size: " ++ toString f.size ++ " bytes)"

/-- The acknowledgement built for a non-CSV upload
(app.py lines 510-520). -/
def nonCsvResponse (f : UploadedFile) : String :=
  let base := "üìÑ **File Received**: " ++ f.name ++ "\n\n" ++
    "I\x27ve noted the file. You can ask me questions about it. For example:\n"
  let hints :=
    if f.ftype.startsWith "image/" then
      "- \x27Analyze the form in this exercise photo.\x27\n" ++
      "- \x27What food is this (from image)? Estimate calories.\x27"
    else if f.ftype = "application/pdf" then
      "- \x27Summarize this PDF document.\x27\n" ++
      "- \x27Extract key points from my workout plan PDF.\x27"
    else if f.ftype = "text/plain" then
      "- \x27What are the main topics in this text file?\x27"
    else ""
  base ++ hints ++ "\nWhat would you like me to focus on regarding this file?"

/-- Truthiness of `st.session_state.user` (a missing key or `None` or an
empty dictionary is falsy). -/
def userTruthy (u : Option (Option Dict)) : Bool :=
  match u with
  | some (some d) => !d.isEmpty
  | _ => false

/-- Truthiness of `st.session_state.csv_info`. -/
def csvInfoTruthy (ci : Option (Option Dict)) : Bool :=
  match ci with
  | some (some d) => !d.isEmpty
  | _ => false

/-- Presence test for `st.session_state.csv_data is not None`. -/
def csvDataPresent (cd : Option (Option DataFrame)) : Bool :=
  match cd with
  | some (some _) => true
  | _ => false

/-- The logout button handler (app.py lines 274-285), up to the final
`st.rerun()`. -/
def handleLogout (st : SessionState) (jar : CookieJar) :
    SessionState × CookieJar :=
  ({ st with logged_in := some false, user := some Option.none,
             messages := some [],
             csv_data := some Option.none, csv_info := some Option.none,
             last_uploaded_file_id := some Option.none },
   { jar with user := Option.none })

/-- The three `if "…" not in st.session_state` initializations at the
top of the main block (app.py lines 345-356). -/
def initsStep (st : SessionState) : SessionState :=
  let st := if st.messages.isNone then
    { st with messages := some [⟨"assistant", greetingMsg⟩] } else st
  let st := if st.csv_data.isNone then
    { st with csv_data := some Option.none, csv_info := some Option.none }
    else st
  let st := if st.last_uploaded_file_id.isNone then
    { st with last_uploaded_file_id := some Option.none } else st
  st

/-- The `Clear CSV Data` button (app.py lines 432-436).  The button is
rendered only inside the expander, which requires `csv_data is not None`
and a truthy `csv_info`; the returned flag records `st.rerun()`. -/
def clearCsvStep (clicked : Bool) (st : SessionState) : SessionState × Bool :=
  if csvDataPresent st.csv_data && csvInfoTruthy st.csv_info && clicked then
    ({ st with csv_data := some Option.none, csv_info := some Option.none,
               last_uploaded_file_id := some Option.none }, true)
  else (st, false)

/-- The file-upload handler (app.py lines 466-529).  `csvRead` is the
outcome of `pd.read_csv` for this run.  Returns the updated state and
whether `st.rerun()` was reached.  When the stored
`last_uploaded_file_id` equals the current upload id, the whole body is
skipped. -/
def handleUpload (csvRead : Except String DataFrame) (f : UploadedFile)
    (st : SessionState) : SessionState × Bool :=
  if st.last_uploaded_file_id.getD Option.none = some f.file_id then
    (st, false)
  else
    let st := { st with last_uploaded_file_id := some (some f.file_id) }
    if f.ftype = "text/csv" then
      let st := { st with csv_data := some Option.none,
                          csv_info := some Option.none }
      match process_csv_file csvRead f.name with
      | (some df, some info) =>
        ({ st with csv_data := some (some df), csv_info := some (some info),
                   messages := some (st.messages.getD [] ++
                     [⟨"assistant", csvSummaryMsg info⟩]) }, true)
      | _ =>
        ({ st with last_uploaded_file_id := some Option.none }, false)
    else
      let st := if csvDataPresent st.csv_data then
        { st with csv_data := some Option.none, csv_info := some Option.none }
        else st
      let st := { st with messages := some (st.messages.getD [] ++
        [⟨"user", fileInfoMsg f⟩, ⟨"assistant", nonCsvResponse f⟩]) }
      (st, true)

/-- The chat handler (app.py lines 532-590): append the user prompt,
obtain a reply, append it, rerun.  `buildPrompt` abstracts the
contextual-prompt assembly of lines 537-571 (profile text plus
`format_csv_for_prompt` when CSV data is loaded); the surrounding
`try/except` guarantees `response` is a string either way. -/
def handleChat (api : List ChatMessage → Except String APIResponse)
    (buildPrompt : SessionState → String → String) (p : String)
    (st : SessionState) : SessionState :=
  let st := { st with messages := some (st.messages.getD [] ++ [⟨"user", p⟩]) }
  let response := healy_generate_response api (buildPrompt st p)
  { st with messages := some (st.messages.getD [] ++ [⟨"assistant", response⟩]) }

/-- The external outcomes and abstracted computations of one script run. -/
structure RunEnv where
  parse : String → Option Dict
  restoreQueryExn : Option String
  db : List Dict
  loginQuery : Except String (List Dict)
  loginUpsert : Except String Unit
  now : String
  csvRead : Except String DataFrame
  api : List ChatMessage → Except String APIResponse
  buildPrompt : SessionState → String → String

/-- The widget interactions of one script run.  The registration form
never touches `session_state` or the cookies, so it does not appear
here. -/
structure RunInput where
  loginAttempt : Option (String × String)
  logoutClick : Bool
  clearCsvClick : Bool
  upload : Option UploadedFile
  prompt : Option String

/-- Phase 1: cookie restoration, guarded by
`if "logged_in" not in st.session_state` (app.py line 213). -/
def restorePhase (env : RunEnv) (sc : SessionState × CookieJar) :
    SessionState × CookieJar :=
  if sc.1.logged_in = Option.none then
    restoreSession env.parse env.restoreQueryExn env.db sc.1 sc.2
  else sc

/-- Phase 2: the sidebar (app.py lines 263-337).  Returns the rerun
flag: the logout handler and a successful login both call `st.rerun()`. -/
def sidebarPhase (bc : Bcrypt) (env : RunEnv) (inp : RunInput)
    (sc : SessionState × CookieJar) : (SessionState × CookieJar) × Bool :=
  let st := sc.1
  let jar := sc.2
  if st.logged_in = some true && userTruthy st.user then
    if inp.logoutClick then (handleLogout st jar, true)
    else ((st, jar), false)
  else
    match inp.loginAttempt with
    | some (email, password) =>
      let r :=
        login_user bc env.loginQuery env.loginUpsert env.now email password st jar
      (r.2, r.1)
    | Option.none => ((st, jar), false)

/-- Phase 3: the main block (app.py lines 340-590), guarded by
`st.session_state.logged_in and st.session_state.user`. -/
def mainPhase (env : RunEnv) (inp : RunInput)
    (sc : SessionState × CookieJar) : (SessionState × CookieJar) × Bool :=
  let st := sc.1
  let jar := sc.2
  if st.logged_in = some true && userTruthy st.user then
    let st := initsStep st
    let c := clearCsvStep inp.clearCsvClick st
    if c.2 then ((c.1, jar), true) else
    let u := match inp.upload with
      | some f => handleUpload env.csvRead f c.1
      | Option.none => (c.1, false)
    if u.2 then ((u.1, jar), true) else
    match inp.prompt with
    | some p =>
      if p ≠ "" then ((handleChat env.api env.buildPrompt p u.1, jar), true)
      else ((u.1, jar), false)
    | Option.none => ((u.1, jar), false)
  else ((st, jar), false)

/-- One full script run: restoration, then the sidebar, then the main
block, with `st.rerun()` aborting the rest of the script. -/
def run (bc : Bcrypt) (env : RunEnv) (inp : RunInput)
    (sc : SessionState × CookieJar) : SessionState × CookieJar :=
  let sc1 := restorePhase env sc
  let s2 := sidebarPhase bc env inp sc1
  if s2.2 then s2.1 else
  (mainPhase env inp s2.1).1

/-- States reachable by some sequence of script runs from a fresh
session (with an arbitrary browser cookie jar). -/
inductive Reachable : SessionState × CookieJar → Prop where
  | init (jar : CookieJar) : Reachable (initialSession, jar)
  | step {sc : SessionState × CookieJar} (bc : Bcrypt) (env : RunEnv)
      (inp : RunInput) : Reachable sc → Reachable (run bc env inp sc)

/-! ### Session-state invariants -/

/-- When the session is marked logged in, the stored user dictionary has
the seven expected keys. -/
def userKeysOk (st : SessionState) : Prop :=
  st.logged_in = some true →
    ∃ d, st.user = some (some d) ∧
      hasKey d "id" = true ∧ hasKey d "username" = true ∧
      hasKey d "email" = true ∧ hasKey d "birthdate" = true ∧
      hasKey d "weight" = true ∧ hasKey d "height" = true ∧
      hasKey d "health_metrics" = true

/-- The `csv_data` / `csv_info` pair is synchronized: both keys absent,
both `None`, or both populated. -/
def csvPaired (st : SessionState) : Prop :=
  (st.csv_data = Option.none ∧ st.csv_info = Option.none) ∨
  (st.csv_data = some Option.none ∧ st.csv_info = some Option.none) ∨
  (∃ df info, st.csv_data = some (some df) ∧ st.csv_info = some (some info))

/-- Once `last_uploaded_file_id` exists, the main block has run, so the
chat and CSV keys exist as well. -/
def mainKeysReady (st : SessionState) : Prop :=
  st.last_uploaded_file_id ≠ Option.none →
    st.messages.isSome = true ∧ st.csv_data.isSome = true ∧
      st.csv_info.isSome = true

/-- The combined reachability invariant. -/
def SessionInv (st : SessionState) : Prop :=
  userKeysOk st ∧ csvPaired st ∧ mainKeysReady st

theorem mkUserData_hasKeys (u : Dict) :
    hasKey (mkUserData u) "id" = true ∧
    hasKey (mkUserData u) "username" = true ∧
    hasKey (mkUserData u) "email" = true ∧
    hasKey (mkUserData u) "birthdate" = true ∧
    hasKey (mkUserData u) "weight" = true ∧
    hasKey (mkUserData u) "height" = true ∧
    hasKey (mkUserData u) "health_metrics" = true := by
  refine ⟨?_, ?_, ?_, ?_, ?_, ?_, ?_⟩ <;> rfl

theorem mkUserData_nonempty (u : Dict) : (mkUserData u).isEmpty = false := rfl

theorem restoreSession_fst (parse : String → Option Dict)
    (qe : Option String) (db : List Dict) (st : SessionState) (jar : CookieJar) :
    (restoreSession parse qe db st jar).1 =
      { st with logged_in := some false, user := some Option.none } ∨
    ∃ u, (restoreSession parse qe db st jar).1 =
      { st with logged_in := some true, user := some (some (mkUserData u)) } := by
  unfold restoreSession
  cases hju : jar.user with
  | none => exact Or.inl rfl
  | some s =>
    dsimp only
    by_cases hs : s = ""
    · rw [if_pos hs]; exact Or.inl rfl
    · rw [if_neg hs]
      cases hp : parse s with
      | none => exact Or.inl rfl
      | some ud =>
        dsimp only
        cases hid : dget ud "id" with
        | none => exact Or.inl rfl
        | some idv =>
          dsimp only
          cases qe with
          | some e => exact Or.inl rfl
          | none =>
            dsimp only
            cases hf : db.filter (fun d => pvBeq (dgetN d "id") idv) with
            | nil => exact Or.inl rfl
            | cons u rest => exact Or.inr ⟨u, rfl⟩

theorem restoreSession_inv (parse : String → Option Dict)
    (qe : Option String) (db : List Dict) (st : SessionState) (jar : CookieJar)
    (h : SessionInv st) : SessionInv (restoreSession parse qe db st jar).1 := by
  obtain ⟨-, hc, hm⟩ := h
  rcases restoreSession_fst parse qe db st jar with heq | ⟨u, heq⟩ <;> rw [heq]
  · exact ⟨fun hlt => by simp at hlt, hc, hm⟩
  · exact ⟨fun _ => ⟨mkUserData u, rfl, mkUserData_hasKeys u⟩, hc, hm⟩

theorem login_user_snd (bc : Bcrypt) (q : Except String (List Dict))
    (up : Except String Unit) (now email password : String)
    (st : SessionState) (jar : CookieJar) :
    (login_user bc q up now email password st jar).2 = (st, jar) ∨
    ∃ u, (login_user bc q up now email password st jar).2 =
      ({ st with user := some (some (mkUserData u)), logged_in := some true },
       { jar with user := some (dumpVal (.dict (mkUserData u))) }) := by
  unfold login_user login_body
  cases q with
  | error e => exact Or.inl rfl
  | ok users =>
    cases users with
    | nil => exact Or.inl rfl
    | cons user rest =>
      dsimp only
      cases hsb : storedHashBytes user with
      | error e => exact Or.inl rfl
      | ok stored_hash =>
        dsimp only
        cases hcp : check_password bc password stored_hash with
        | error e => exact Or.inl rfl
        | ok b =>
          cases b with
          | false => exact Or.inl rfl
          | true =>
            dsimp only
            cases up with
            | error e => exact Or.inl rfl
            | ok u => exact Or.inr ⟨dset user "last_login" (.str now), rfl⟩

theorem login_user_inv (bc : Bcrypt) (q : Except String (List Dict))
    (up : Except String Unit) (now email password : String)
    (st : SessionState) (jar : CookieJar) (h : SessionInv st) :
    SessionInv (login_user bc q up now email password st jar).2.1 := by
  obtain ⟨hu, hc, hm⟩ := h
  rcases login_user_snd bc q up now email password st jar with heq | ⟨u, heq⟩
  · rw [show (login_user bc q up now email password st jar).2.1 =
        ((login_user bc q up now email password st jar).2).1 from rfl, heq]
    exact ⟨hu, hc, hm⟩
  · rw [show (login_user bc q up now email password st jar).2.1 =
        ((login_user bc q up now email password st jar).2).1 from rfl, heq]
    exact ⟨fun _ => ⟨mkUserData u, rfl, mkUserData_hasKeys u⟩, hc, hm⟩

theorem initsStep_spec (st : SessionState) :
    (initsStep st).logged_in = st.logged_in ∧ (initsStep st).user = st.user ∧
    (initsStep st).messages.isSome = true ∧
    (initsStep st).csv_data.isSome = true ∧
    (initsStep st).last_uploaded_file_id.isSome = true := by
  obtain ⟨li, u, m, cd, ci, l⟩ := st
  cases m <;> cases cd <;> cases l <;> simp [initsStep]

theorem initsStep_csv (st : SessionState) (hc : csvPaired st) :
    csvPaired (initsStep st) ∧ (initsStep st).csv_info.isSome = true := by
  obtain ⟨li, u, m, cd, ci, l⟩ := st
  rcases hc with ⟨h1, h2⟩ | ⟨h1, h2⟩ | ⟨df, info, h1, h2⟩ <;>
    simp only at h1 h2 <;> subst h1 <;> subst h2 <;> cases m <;> cases l <;>
    simp [initsStep, csvPaired]

theorem clearCsvStep_fst (clicked : Bool) (st : SessionState) :
    (clearCsvStep clicked st).1 = st ∨
    (clearCsvStep clicked st).1 =
      { st with csv_data := some Option.none, csv_info := some Option.none,
                last_uploaded_file_id := some Option.none } := by
  unfold clearCsvStep
  split
  · right; rfl
  · left; rfl

theorem handleChat_spec (api : List ChatMessage → Except String APIResponse)
    (bp : SessionState → String → String) (p : String) (st : SessionState) :
    (handleChat api bp p st).logged_in = st.logged_in ∧
    (handleChat api bp p st).user = st.user ∧
    (handleChat api bp p st).messages.isSome = true ∧
    (handleChat api bp p st).csv_data = st.csv_data ∧
    (handleChat api bp p st).csv_info = st.csv_info ∧
    (handleChat api bp p st).last_uploaded_file_id = st.last_uploaded_file_id := by
  exact ⟨rfl, rfl, rfl, rfl, rfl, rfl⟩

theorem handleUpload_inv (csvRead : Except String DataFrame)
    (f : UploadedFile) (st : SessionState) (hc : csvPaired st)
    (hm : st.messages.isSome = true) (hcd : st.csv_data.isSome = true)
    (hci : st.csv_info.isSome = true)
    (hl : st.last_uploaded_file_id.isSome = true) :
    (handleUpload csvRead f st).1.logged_in = st.logged_in ∧
    (handleUpload csvRead f st).1.user = st.user ∧
    (handleUpload csvRead f st).1.messages.isSome = true ∧
    csvPaired (handleUpload csvRead f st).1 ∧
    (handleUpload csvRead f st).1.csv_data.isSome = true ∧
    (handleUpload csvRead f st).1.csv_info.isSome = true ∧
    (handleUpload csvRead f st).1.last_uploaded_file_id.isSome = true := by
  obtain ⟨li, u, m, cd, ci, l⟩ := st
  unfold handleUpload
  split
  · exact ⟨rfl, rfl, hm, hc, hcd, hci, hl⟩
  · split
    · cases csvRead with
      | error e =>
        refine ⟨rfl, rfl, hm, Or.inr (Or.inl ⟨rfl, rfl⟩), rfl, rfl, rfl⟩
      | ok df =>
        refine ⟨rfl, rfl, rfl, Or.inr (Or.inr ⟨df, _, rfl, rfl⟩), rfl, rfl, rfl⟩
    · dsimp only
      split
      · exact ⟨rfl, rfl, rfl, Or.inr (Or.inl ⟨rfl, rfl⟩), rfl, rfl, rfl⟩
      · refine ⟨rfl, rfl, rfl, ?_, hcd, hci, rfl⟩
        rcases hc with ⟨h1, h2⟩ | ⟨h1, h2⟩ | ⟨df, info, h1, h2⟩
        · exact Or.inl ⟨h1, h2⟩
        · exact Or.inr (Or.inl ⟨h1, h2⟩)
        · exact Or.inr (Or.inr ⟨df, info, h1, h2⟩)

/-- State of the main block after its initializations: the invariant
plus presence of every main-block key. -/
def MainReady (st : SessionState) : Prop :=
  userKeysOk st ∧ csvPaired st ∧ st.messages.isSome = true ∧
  st.csv_data.isSome = true ∧ st.csv_info.isSome = true ∧
  st.last_uploaded_file_id.isSome = true

theorem mainReady_sessionInv {st : SessionState} (h : MainReady st) :
    SessionInv st :=
  ⟨h.1, h.2.1, fun _ => ⟨h.2.2.1, h.2.2.2.1, h.2.2.2.2.1⟩⟩

theorem mainReady_initsStep (st : SessionState) (h : SessionInv st) :
    MainReady (initsStep st) := by
  obtain ⟨hu, hc, -⟩ := h
  obtain ⟨e1, e2, e3, e4, e5⟩ := initsStep_spec st
  obtain ⟨p1, p2⟩ := initsStep_csv st hc
  refine ⟨?_, p1, e3, e4, p2, e5⟩
  intro hlt
  rw [e1] at hlt
  rw [e2]
  exact hu hlt

theorem mainReady_clear (b : Bool) {st : SessionState} (h : MainReady st) :
    MainReady (clearCsvStep b st).1 := by
  obtain ⟨hu, hc, h3, h4, h5, h6⟩ := h
  rcases clearCsvStep_fst b st with heq | heq <;> rw [heq]
  · exact ⟨hu, hc, h3, h4, h5, h6⟩
  · exact ⟨hu, Or.inr (Or.inl ⟨rfl, rfl⟩), h3, rfl, rfl, rfl⟩

theorem mainReady_upload (csvRead : Except String DataFrame)
    (f : UploadedFile) {st : SessionState} (h : MainReady st) :
    MainReady (handleUpload csvRead f st).1 := by
  obtain ⟨hu, hc, h3, h4, h5, h6⟩ := h
  obtain ⟨e1, e2, e3, e4, e5, e6, e7⟩ :=
    handleUpload_inv csvRead f st hc h3 h4 h5 h6
  refine ⟨?_, e4, e3, e5, e6, e7⟩
  intro hlt
  rw [e1] at hlt
  rw [e2]
  exact hu hlt

theorem mainReady_chat (api : List ChatMessage → Except String APIResponse)
    (bp : SessionState → String → String) (p : String) {st : SessionState}
    (h : MainReady st) : MainReady (handleChat api bp p st) := by
  obtain ⟨hu, hc, h3, h4, h5, h6⟩ := h
  obtain ⟨e1, e2, e3, e4, e5, e6⟩ := handleChat_spec api bp p st
  refine ⟨?_, ?_, e3, ?_, ?_, ?_⟩
  · intro hlt; rw [e1] at hlt; rw [e2]; exact hu hlt
  · unfold csvPaired; rw [e4, e5]; exact hc
  · rw [e4]; exact h4
  · rw [e5]; exact h5
  · rw [e6]; exact h6

theorem handleLogout_inv (st : SessionState) (jar : CookieJar) :
    SessionInv (handleLogout st jar).1 := by
  refine ⟨fun hlt => ?_, Or.inr (Or.inl ⟨rfl, rfl⟩), fun _ => ⟨rfl, rfl, rfl⟩⟩
  simp [handleLogout] at hlt

theorem restorePhase_inv (env : RunEnv) (sc : SessionState × CookieJar)
    (h : SessionInv sc.1) : SessionInv (restorePhase env sc).1 := by
  unfold restorePhase
  split
  · exact restoreSession_inv env.parse env.restoreQueryExn env.db sc.1 sc.2 h
  · exact h

theorem sidebarPhase_inv (bc : Bcrypt) (env : RunEnv) (inp : RunInput)
    (sc : SessionState × CookieJar) (h : SessionInv sc.1) :
    SessionInv (sidebarPhase bc env inp sc).1.1 := by
  unfold sidebarPhase
  dsimp only
  split
  · split
    · exact handleLogout_inv sc.1 sc.2
    · exact h
  · cases hla : inp.loginAttempt with
    | none => exact h
    | some ep =>
      obtain ⟨email, password⟩ := ep
      exact login_user_inv bc env.loginQuery env.loginUpsert env.now
        email password sc.1 sc.2 h

theorem mainPhase_inv (env : RunEnv) (inp : RunInput)
    (sc : SessionState × CookieJar) (h : SessionInv sc.1) :
    SessionInv (mainPhase env inp sc).1.1 := by
  unfold mainPhase
  dsimp only
  split
  · have h1 := mainReady_initsStep sc.1 h
    have h2 := mainReady_clear inp.clearCsvClick h1
    split
    · exact mainReady_sessionInv h2
    · have h3 : MainReady (match inp.upload with
        | some f => handleUpload env.csvRead f (clearCsvStep inp.clearCsvClick (initsStep sc.1)).1
        | Option.none => ((clearCsvStep inp.clearCsvClick (initsStep sc.1)).1, false)).1 := by
        cases inp.upload with
        | none => exact h2
        | some f => exact mainReady_upload env.csvRead f h2
      split
      · exact mainReady_sessionInv h3
      · cases inp.prompt with
        | none => exact mainReady_sessionInv h3
        | some p =>
          dsimp only
          split
          · exact mainReady_sessionInv
              (mainReady_chat env.api env.buildPrompt p h3)
          · exact mainReady_sessionInv h3
  · exact h

theorem run_inv (bc : Bcrypt) (env : RunEnv) (inp : RunInput)
    (sc : SessionState × CookieJar) (h : SessionInv sc.1) :
    SessionInv (run bc env inp sc).1 := by
  unfold run
  dsimp only
  have h1 := restorePhase_inv env sc h
  have h2 := sidebarPhase_inv bc env inp (restorePhase env sc) h1
  split
  · exact h2
  · exact mainPhase_inv env inp (sidebarPhase bc env inp (restorePhase env sc)).1 h2

theorem reachable_inv {sc : SessionState × CookieJar} (h : Reachable sc) :
    SessionInv sc.1 := by
  induction h with
  | init jar =>
    exact ⟨fun hlt => by simp [initialSession] at hlt,
           Or.inl ⟨rfl, rfl⟩, fun hl => absurd rfl hl⟩
  | step bc env inp _ ih => exact run_inv bc env inp _ ih

theorem hasKey_nonempty {d : Dict} {k : String} (h : hasKey d k = true) :
    d.isEmpty = false := by
  cases d with
  | nil => simp [hasKey, dget] at h
  | cons p rest => rfl

theorem initsStep_id (st : SessionState) (h1 : st.messages.isSome = true)
    (h2 : st.csv_data.isSome = true)
    (h3 : st.last_uploaded_file_id.isSome = true) :
    initsStep st = st := by
  obtain ⟨li, u, m, cd, ci, l⟩ := st
  cases m <;> cases cd <;> cases l <;> simp_all [initsStep]

theorem clearCsvStep_false (st : SessionState) :
    clearCsvStep false st = (st, false) := by
  unfold clearCsvStep
  rw [Bool.and_false]
  rfl

theorem handleUpload_same (csvRead : Except String DataFrame)
    (f : UploadedFile) (st : SessionState)
    (h : st.last_uploaded_file_id = some (some f.file_id)) :
    handleUpload csvRead f st = (st, false) := by
  unfold handleUpload
  rw [h, Option.getD_some, if_pos rfl]

/-- The input of a script re-run triggered while the same uploaded file
is still sitting in the uploader: no clicks, no prompt, just the file. -/
def onlyUploadInput (f : UploadedFile) : RunInput :=
  ⟨Option.none, false, false, some f, Option.none⟩

theorem run_same_upload (bc : Bcrypt) (env : RunEnv)
    (sc : SessionState × CookieJar) (f : UploadedFile)
    (hreach : Reachable sc) (hlog : sc.1.logged_in = some true)
    (hlast : sc.1.last_uploaded_file_id = some (some f.file_id)) :
    run bc env (onlyUploadInput f) sc = sc := by
  obtain ⟨hu, hc, hm⟩ := reachable_inv hreach
  obtain ⟨d, hd, hk⟩ := hu hlog
  have hready := hm (by rw [hlast]; exact fun hcon => Option.noConfusion hcon)
  have huser : userTruthy sc.1.user = true := by
    rw [hd]
    unfold userTruthy
    dsimp only
    rw [hasKey_nonempty hk.1]
    rfl
  have hguard : (decide (sc.1.logged_in = some true) && userTruthy sc.1.user) = true := by
    rw [hlog, huser]
    rfl
  have e0 : restorePhase env sc = sc := by
    unfold restorePhase
    rw [hlog]
    rfl
  have e1 : sidebarPhase bc env (onlyUploadInput f) sc = (sc, false) := by
    unfold sidebarPhase
    dsimp only
    rw [hguard]
    rfl
  have hin : initsStep sc.1 = sc.1 :=
    initsStep_id sc.1 hready.1 hready.2.1 (by rw [hlast]; rfl)
  have hup : handleUpload env.csvRead f sc.1 = (sc.1, false) :=
    handleUpload_same env.csvRead f sc.1 hlast
  have e2 : mainPhase env (onlyUploadInput f) sc = (sc, false) := by
    unfold mainPhase
    dsimp only [onlyUploadInput]
    rw [hguard]
    simp [hin, clearCsvStep_false, hup]
  unfold run
  dsimp only
  rw [e0, e1]
  show (mainPhase env (onlyUploadInput f) sc).1 = sc
  rw [e2]

theorem filter_isEmpty_false {α : Type} (p : α → Bool) (l : List α) (d : α)
    (hd : d ∈ l) (hp : p d = true) : (l.filter p).isEmpty = false := by
  induction l with
  | nil => cases hd
  | cons x xs ih =>
    cases hd with
    | head => simp [List.filter_cons, hp]
    | tail _ hmem =>
      cases hx : p x with
      | true => simp [List.filter_cons, hx]
      | false => simp only [List.filter_cons, hx, if_neg]; exact ih hmem

theorem filter_eq_nil_of_all_false {α : Type} (p : α → Bool) (l : List α)
    (h : ∀ d ∈ l, p d = false) : l.filter p = [] := by
  induction l with
  | nil => rfl
  | cons x xs ih =>
    rw [List.filter_cons, h x (List.mem_cons_self x xs)]
    exact ih (fun d hd => h d (List.mem_cons_of_mem x hd))

/-! ### Concrete instances used by the witnesses -/

/-- A bcrypt instance satisfying the library contract (identity hash,
equality check). -/
def bc0 : Bcrypt :=
  ⟨fun pw _ => pw, fun a b => .ok (a == b), fun pw salt => by simp⟩

/-- A stored user document whose hash verifies the password `pw123`
under `bc0`. -/
def u0 : Dict :=
  [("id", PyVal.str "u1"), ("username", PyVal.str "alice"),
   ("email", PyVal.str "a@x"), ("password_hash", PyVal.str "pw123")]

/-- A one-column dataframe, as the outcome of a successful
`pd.read_csv`. -/
def df0 : DataFrame := ⟨["w"], [("w", "int64")], [[PyVal.int 70]], []⟩

/-- A chat API that answers every request. -/
def api0 : List ChatMessage → Except String APIResponse :=
  fun _ => .ok ⟨[⟨⟨"assistant", "hello"⟩⟩]⟩

/-- A run environment whose external calls all succeed. -/
def env0 : RunEnv :=
  ⟨fun _ => Option.none, Option.none, [], .ok [u0], .ok (),
   "2026-01-01T00:00:00", .ok df0, api0, fun _ p => p⟩

/-- An empty browser cookie jar. -/
def jar0 : CookieJar := ⟨Option.none⟩

/-- A run submitting the login form with the credentials of alice. -/
def inpLogin : RunInput :=
  ⟨some ("a@x", "pw123"), false, false, Option.none, Option.none⟩

/-- A CSV upload event. -/
def f0 : UploadedFile := ⟨"fid1", "data.csv", "text/csv", 10⟩

/-- The session after a successful login from a fresh state. -/
def sc1 : SessionState × CookieJar := run bc0 env0 inpLogin (initialSession, jar0)

/-- The session after then uploading `f0` (a CSV processed
successfully). -/
def sc2 : SessionState × CookieJar := run bc0 env0 (onlyUploadInput f0) sc1

theorem reach_sc1 : Reachable sc1 :=
  Reachable.step bc0 env0 inpLogin (Reachable.init jar0)

theorem reach_sc2 : Reachable sc2 :=
  Reachable.step bc0 env0 (onlyUploadInput f0) reach_sc1

/-! ### The claims -/

/-- Claim C1: in every reachable session state whose
`last_uploaded_file_id` equals the current uploaded file id, a script
re-run with that same file (and no other interaction) leaves the
message list, `csv_data`, `csv_info` and `last_uploaded_file_id`
unchanged — the same upload event is never processed twice. -/
theorem claim_c1 (bc : Bcrypt) (env : RunEnv) (sc : SessionState × CookieJar)
    (f : UploadedFile) (hreach : Reachable sc)
    (hlog : sc.1.logged_in = some true)
    (hlast : sc.1.last_uploaded_file_id = some (some f.file_id)) :
    (run bc env (onlyUploadInput f) sc).1.messages = sc.1.messages ∧
    (run bc env (onlyUploadInput f) sc).1.csv_data = sc.1.csv_data ∧
    (run bc env (onlyUploadInput f) sc).1.csv_info = sc.1.csv_info ∧
    (run bc env (onlyUploadInput f) sc).1.last_uploaded_file_id =
      sc.1.last_uploaded_file_id := by
  rw [run_same_upload bc env sc f hreach hlog hlast]
  exact ⟨rfl, rfl, rfl, rfl⟩

/-- Witness for C1: a concrete reachable state holding the freshly
uploaded CSV `f0`; re-running with the same file changes nothing. -/
theorem claim_c1_witness :
    (run bc0 env0 (onlyUploadInput f0) sc2).1.messages = sc2.1.messages ∧
    (run bc0 env0 (onlyUploadInput f0) sc2).1.csv_data = sc2.1.csv_data ∧
    (run bc0 env0 (onlyUploadInput f0) sc2).1.csv_info = sc2.1.csv_info ∧
    (run bc0 env0 (onlyUploadInput f0) sc2).1.last_uploaded_file_id =
      sc2.1.last_uploaded_file_id :=
  claim_c1 bc0 env0 sc2 f0 reach_sc2 (by rfl) (by rfl)

/-- Claim C4: password handling round-trips through bcrypt — for every
password `p`, `check_password p (hash_password p)` succeeds — and the
document created by `register_user` stores the decoded hash under
`password_hash` (on a database with no duplicate, the created document
is exactly `mkUserDoc` with the decoded hash) and has no plaintext
`password` field. -/
theorem claim_c4 (bc : Bcrypt) (salt : Bytes) (dec : Bytes → String)
    (p : String) (newId ca un em bd : String) (w h : ℚ) :
    check_password bc p (hash_password bc salt p) = .ok true ∧
    dget (mkUserDoc newId un em (dec (hash_password bc salt p)) bd w h ca)
      "password_hash" = some (.str (dec (hash_password bc salt p))) ∧
    register_user bc salt dec Option.none Option.none newId ca un em p bd w h [] =
      (true, [mkUserDoc newId un em (dec (hash_password bc salt p)) bd w h ca]) ∧
    hasKey (mkUserDoc newId un em (dec (hash_password bc salt p)) bd w h ca)
      "password" = false :=
  ⟨bc.roundtrip (encodeUtf8 p) salt, rfl, rfl, rfl⟩

/-- Decoder of code-point byte lists back to strings (a concrete
`bytes.decode`). -/
def decStr (bs : Bytes) : String :=
  String.mk (bs.map Char.ofNat)

/-- Witness for C4 at a concrete bcrypt instance and password. -/
theorem claim_c4_witness :
    check_password bc0 "pw123" (hash_password bc0 [] "pw123") = .ok true ∧
    dget (mkUserDoc "u9" "bob" "b@x" "pw123" "2000-01-01" 70 170 "t0")
      "password_hash" = some (.str "pw123") ∧
    register_user bc0 [] decStr Option.none Option.none "u9" "t0" "bob" "b@x"
      "pw123" "2000-01-01" 70 170 [] =
      (true, [mkUserDoc "u9" "bob" "b@x" "pw123" "2000-01-01" 70 170 "t0"]) ∧
    hasKey (mkUserDoc "u9" "bob" "b@x" "pw123" "2000-01-01" 70 170 "t0")
      "password" = false :=
  claim_c4 bc0 [] decStr "pw123" "u9" "t0" "bob" "b@x" "2000-01-01" 70 170

/-- Claim C5, counterexample: the program does not query the container
by exactly two fixed predicates — the number of distinct WHERE clauses
it issues is not 2. -/
theorem claim_c5_counterexample :
    ¬ (issuedQueryTexts.dedup.length = 2) := by decide

/-- Claim C5 as amended: the user container is queried by exactly three
fixed predicates (username-or-email for registration, email for login,
id for cookie restoration), pairwise distinct, with only parameter
values varying. -/
theorem claim_c5_amended :
    issuedQueryTexts.dedup.length = 3 ∧
    issuedQueryTexts =
      [registerQueryText, loginQueryText, cookieRestoreQueryText] ∧
    registerQueryText ≠ loginQueryText ∧
    registerQueryText ≠ cookieRestoreQueryText ∧
    loginQueryText ≠ cookieRestoreQueryText := by
  refine ⟨by decide, rfl, by decide, by decide, by decide⟩

/-- Claim C6: `Healy.generate_response` forwards exactly two messages —
the fixed system prompt and the unchanged user input — and returns the
content of the API response. -/
theorem claim_c6 (api : List ChatMessage → Except String APIResponse)
    (input : String) (r : APIResponse) (c : Choice) (cs : List Choice)
    (hapi : api (healyMessages input) = .ok r) (hch : r.choices = c :: cs) :
    healyMessages input =
      [⟨"system", "You\x27re a professional fitness advisor."⟩,
       ⟨"user", input⟩] ∧
    healy_generate_response api input = c.message.content := by
  refine ⟨rfl, ?_⟩
  unfold healy_generate_response get_response
  rw [hapi]
  dsimp only
  rw [hch]

/-- Witness for C6: a concrete API call whose answer is returned
verbatim. -/
theorem claim_c6_witness :
    healyMessages "How much protein?" =
      [⟨"system", "You\x27re a professional fitness advisor."⟩,
       ⟨"user", "How much protein?"⟩] ∧
    healy_generate_response api0 "How much protein?" = "hello" :=
  claim_c6 api0 "How much protein?" ⟨[⟨⟨"assistant", "hello"⟩⟩]⟩
    ⟨⟨"assistant", "hello"⟩⟩ [] rfl rfl

/-- Claim C9: in every reachable state, `csv_data` and `csv_info` are
synchronized — both keys absent, both `None`, or both populated. -/
theorem claim_c9 (sc : SessionState × CookieJar) (h : Reachable sc) :
    csvPaired sc.1 :=
  (reachable_inv h).2.1

/-- Witness for C9 at the concrete state holding an uploaded CSV. -/
theorem claim_c9_witness : csvPaired sc2.1 :=
  claim_c9 sc2 reach_sc2

/-- Claim C2: every exception raised by an SDK call inside
`register_user`, `login_user`, `process_csv_file` or
`AzureClient.get_response` is caught — whenever the `try` body raises,
`register_user` returns `False` (database untouched), `login_user`
returns `False` (session and cookies untouched), `process_csv_file`
returns `(None, None)`, and `get_response` returns a string beginning
with `"Error: "`. -/
theorem claim_c2 (bc : Bcrypt) (salt : Bytes) (dec : Bytes → String)
    (qe ce : Option String) (newId ca un em pw bd : String) (w h : ℚ)
    (db : List Dict) (e1 : String)
    (query : Except String (List Dict)) (upsert : Except String Unit)
    (now email password : String) (st : SessionState) (jar : CookieJar)
    (e2 : String) (fn : String) (e3 : String)
    (api : List ChatMessage → Except String APIResponse)
    (msgs : List ChatMessage) (e4 : String)
    (hreg : register_body bc salt dec qe ce newId ca un em pw bd w h db =
      .error e1)
    (hlog : login_body bc query upsert now email password st jar = .error e2)
    (hapi : api msgs = .error e4) :
    register_user bc salt dec qe ce newId ca un em pw bd w h db = (false, db) ∧
    login_user bc query upsert now email password st jar = (false, st, jar) ∧
    process_csv_file (.error e3) fn = (Option.none, Option.none) ∧
    get_response api msgs = "Error: " ++ e4 := by
  refine ⟨?_, ?_, rfl, ?_⟩
  · unfold register_user
    rw [hreg]
  · unfold login_user
    rw [hlog]
  · unfold get_response
    rw [hapi]

/-- Witness for C2: concrete raising calls (the duplicate-check query,
the login query, `read_csv`, and the completion endpoint all raise). -/
theorem claim_c2_witness :
    register_user bc0 [] decStr (some "boom") Option.none "u9" "t0" "bob"
      "b@x" "pw" "2000-01-01" 70 170 [] = (false, []) ∧
    login_user bc0 (.error "db down") (.ok ()) "t0" "a@x" "pw"
      initialSession jar0 = (false, initialSession, jar0) ∧
    process_csv_file (.error "bad csv") "data.csv" =
      (Option.none, Option.none) ∧
    get_response (fun _ => .error "net down") [] = "Error: " ++ "net down" :=
  claim_c2 bc0 [] decStr (some "boom") Option.none "u9" "t0" "bob" "b@x" "pw"
    "2000-01-01" 70 170 [] "boom" (.error "db down") (.ok ()) "t0" "a@x" "pw"
    initialSession jar0 "db down" "data.csv" "bad csv"
    (fun _ => .error "net down") [] "net down" rfl rfl rfl

/-- Claim C3: `login_user` returns `True` exactly when the email query
returns at least one document and bcrypt verification of the password
against the stored hash of that first document succeeds (with the
`last_login` upsert not raising — any exception yields `False`, per the
exception case of the claim); whenever it returns `False`, the session and
cookies are left untouched, so the session is not marked logged in. -/
theorem claim_c3 (bc : Bcrypt) (query : Except String (List Dict))
    (upsert : Except String Unit) (now email password : String)
    (st : SessionState) (jar : CookieJar) :
    ((login_user bc query upsert now email password st jar).1 = true ↔
      ∃ u us hb, query = .ok (u :: us) ∧ storedHashBytes u = .ok hb ∧
        check_password bc password hb = .ok true ∧ upsert = .ok ()) ∧
    ((login_user bc query upsert now email password st jar).1 = false →
      (login_user bc query upsert now email password st jar).2 = (st, jar)) := by
  unfold login_user login_body
  cases query with
  | error e => simp
  | ok users =>
    cases users with
    | nil => simp
    | cons user rest =>
      dsimp only
      cases hsb : storedHashBytes user with
      | error e => simp [hsb]
      | ok stored_hash =>
        dsimp only
        cases hcp : check_password bc password stored_hash with
        | error e => simp [hsb, hcp]
        | ok b =>
          cases b with
          | false => simp [hsb, hcp]
          | true =>
            dsimp only
            cases upsert with
            | error e => simp [hsb, hcp]
            | ok u => simp [hsb, hcp]

/-- Witness for C3: a successful login against a concrete document. -/
theorem claim_c3_witness :
    (login_user bc0 (.ok [u0]) (.ok ()) "t0" "a@x" "pw123"
      initialSession jar0).1 = true :=
  (claim_c3 bc0 (.ok [u0]) (.ok ()) "t0" "a@x" "pw123" initialSession
    jar0).1.mpr ⟨u0, [], encodeUtf8 "pw123", rfl, rfl, rfl, rfl⟩

/-- A parse function on which every string fails to parse (as
`json.loads` does on the empty string). -/
def parseNone : String → Option Dict := fun _ => Option.none

/-- Claim C7, counterexample: an empty `"user"` cookie fails to parse,
yet cookie restoration leaves it in place instead of deleting it — the
empty-string guard at app.py line 220 skips the whole block, so the
claimed deletion does not happen. -/
theorem claim_c7_counterexample :
    parseNone "" = Option.none ∧
    (restoreSession parseNone Option.none [] initialSession
      ⟨some ""⟩).1.logged_in = some false ∧
    (restoreSession parseNone Option.none [] initialSession
      ⟨some ""⟩).2.user = some "" ∧
    some "" ≠ (Option.none : Option String) := by
  exact ⟨rfl, rfl, rfl, by simp⟩

/-- Claim C7 as amended: when a `"user"` cookie names an id of an
existing database document, the session user is populated from that
document (not from the fields stored in the cookie) and `logged_in` becomes
`True` with the cookie kept; when no document with that id exists, or
the cookie is nonempty and fails to parse, the cookie is deleted and
the session remains logged out; an empty cookie is left in place with
the session logged out. -/
theorem claim_c7_amended (parse : String → Option Dict) (qe : Option String)
    (db : List Dict) (st : SessionState) (jar : CookieJar) :
    (∀ s ud idv u us, jar.user = some s → s ≠ "" → parse s = some ud →
      dget ud "id" = some idv → qe = Option.none →
      db.filter (fun d => pvBeq (dgetN d "id") idv) = u :: us →
      restoreSession parse qe db st jar =
        ({ st with logged_in := some true,
                   user := some (some (mkUserData u)) }, jar)) ∧
    (∀ s ud idv, jar.user = some s → s ≠ "" → parse s = some ud →
      dget ud "id" = some idv → qe = Option.none →
      db.filter (fun d => pvBeq (dgetN d "id") idv) = [] →
      restoreSession parse qe db st jar =
        ({ st with logged_in := some false, user := some Option.none },
         { jar with user := Option.none })) ∧
    (∀ s, jar.user = some s → s ≠ "" → parse s = Option.none →
      restoreSession parse qe db st jar =
        ({ st with logged_in := some false, user := some Option.none },
         { jar with user := Option.none })) ∧
    (jar.user = some "" →
      restoreSession parse qe db st jar =
        ({ st with logged_in := some false, user := some Option.none },
         jar)) := by
  refine ⟨?_, ?_, ?_, ?_⟩
  · intro s ud idv u us hju hs hp hid hqe hf
    subst hqe
    unfold restoreSession
    rw [hju]
    dsimp only
    rw [if_neg hs, hp]
    dsimp only
    rw [hid]
    dsimp only
    rw [hf]
  · intro s ud idv hju hs hp hid hqe hf
    subst hqe
    unfold restoreSession
    rw [hju]
    dsimp only
    rw [if_neg hs, hp]
    dsimp only
    rw [hid]
    dsimp only
    rw [hf]
  · intro s hju hs hp
    unfold restoreSession
    rw [hju]
    dsimp only
    rw [if_neg hs, hp]
  · intro hju
    unfold restoreSession
    rw [hju]
    dsimp only
    rw [if_pos rfl]

/-- A concrete parse function: the cookie string `ck` holds the id
`u1`. -/
def parseA : String → Option Dict :=
  fun s => if s = "ck" then some [("id", PyVal.str "u1")] else Option.none

/-- The database document found during the witness restoration. -/
def docA : Dict := [("id", PyVal.str "u1"), ("username", PyVal.str "bob")]

/-- Witness for the amended C7: a successful restoration from a cookie
naming an existing user, and an empty cookie left in place. -/
theorem claim_c7_amended_witness :
    restoreSession parseA Option.none [docA] initialSession ⟨some "ck"⟩ =
      ({ initialSession with logged_in := some true,
                             user := some (some (mkUserData docA)) },
       ⟨some "ck"⟩) ∧
    restoreSession parseA Option.none [docA] initialSession ⟨some ""⟩ =
      ({ initialSession with logged_in := some false,
                             user := some Option.none }, ⟨some ""⟩) :=
  ⟨(claim_c7_amended parseA Option.none [docA] initialSession
      ⟨some "ck"⟩).1 "ck" [("id", PyVal.str "u1")] (PyVal.str "u1") docA []
      rfl (by decide) rfl rfl rfl rfl,
   (claim_c7_amended parseA Option.none [docA] initialSession
      ⟨some ""⟩).2.2.2 rfl⟩

/-- Claim C8: in every reachable state with `logged_in` true, the
session user dictionary has the keys `id`, `username`, `email`,
`birthdate`, `weight`, `height` and `health_metrics` (both setters go
through `mkUserData`), and `health_metrics` is defaulted from
`weight`/`height` when the database document lacks it. -/
theorem claim_c8 :
    (∀ sc : SessionState × CookieJar, Reachable sc →
      sc.1.logged_in = some true →
      ∃ d, sc.1.user = some (some d) ∧
        hasKey d "id" = true ∧ hasKey d "username" = true ∧
        hasKey d "email" = true ∧ hasKey d "birthdate" = true ∧
        hasKey d "weight" = true ∧ hasKey d "height" = true ∧
        hasKey d "health_metrics" = true) ∧
    (∀ u : Dict, hasKey u "health_metrics" = false →
      dget (mkUserData u) "health_metrics" = some (.dict
        [("initial_weight", dgetN u "weight"),
         ("initial_height", dgetN u "height"),
         ("progress", .list [])])) := by
  constructor
  · intro sc h hl
    exact (reachable_inv h).1 hl
  · intro u hu
    rw [show dget (mkUserData u) "health_metrics" =
        some (dgetD u "health_metrics" (PyVal.dict
          [("initial_weight", dgetN u "weight"),
           ("initial_height", dgetN u "height"),
           ("progress", PyVal.list [])])) from rfl]
    unfold dgetD
    rw [dget_of_not_hasKey hu]
    rfl

/-- Witness for C8: the concrete logged-in state after a successful
login, and a database document without `health_metrics`. -/
theorem claim_c8_witness :
    (∃ d, sc1.1.user = some (some d) ∧
      hasKey d "id" = true ∧ hasKey d "username" = true ∧
      hasKey d "email" = true ∧ hasKey d "birthdate" = true ∧
      hasKey d "weight" = true ∧ hasKey d "height" = true ∧
      hasKey d "health_metrics" = true) ∧
    dget (mkUserData u0) "health_metrics" = some (.dict
      [("initial_weight", dgetN u0 "weight"),
       ("initial_height", dgetN u0 "height"),
       ("progress", .list [])]) :=
  ⟨claim_c8.1 sc1 reach_sc1 (by rfl), claim_c8.2 u0 (by rfl)⟩

/-- Claim C10: `register_user` is atomic with respect to duplicates —
when a document matching the duplicate-check predicate exists it
returns `False` and creates nothing, and when none exists and no
exception occurs it appends exactly one new document and returns
`True`. -/
theorem claim_c10 (bc : Bcrypt) (salt : Bytes) (dec : Bytes → String)
    (qe ce : Option String) (newId ca un em pw bd : String) (w h : ℚ)
    (db : List Dict) :
    ((∃ d ∈ db, matchesRegisterQuery un em d = true) →
      register_user bc salt dec qe ce newId ca un em pw bd w h db =
        (false, db)) ∧
    (qe = Option.none → ce = Option.none →
      (∀ d ∈ db, matchesRegisterQuery un em d = false) →
      register_user bc salt dec qe ce newId ca un em pw bd w h db =
        (true, db ++ [mkUserDoc newId un em (dec (hash_password bc salt pw))
          bd w h ca])) := by
  constructor
  · rintro ⟨d, hd, hmatch⟩
    cases qe with
    | some e => rfl
    | none =>
      have hne := filter_isEmpty_false (matchesRegisterQuery un em) db d hd hmatch
      unfold register_user register_body
      dsimp only
      rw [hne]
      rfl
  · intro hqe hce hall
    subst hqe
    subst hce
    have hnil := filter_eq_nil_of_all_false (matchesRegisterQuery un em) db hall
    unfold register_user register_body
    dsimp only
    rw [hnil]
    rfl

/-- Witness for C10: a duplicate username is rejected on a one-document
database, and registration on an empty database creates exactly one
document. -/
theorem claim_c10_witness :
    register_user bc0 [] decStr Option.none Option.none "u9" "t0" "alice"
      "b@x" "pw" "2000-01-01" 70 170 [u0] = (false, [u0]) ∧
    register_user bc0 [] decStr Option.none Option.none "u9" "t0" "alice"
      "b@x" "pw" "2000-01-01" 70 170 [] =
      (true, [mkUserDoc "u9" "alice" "b@x"
        (decStr (hash_password bc0 [] "pw")) "2000-01-01" 70 170 "t0"]) :=
  ⟨(claim_c10 bc0 [] decStr Option.none Option.none "u9" "t0" "alice" "b@x"
      "pw" "2000-01-01" 70 170 [u0]).1
      ⟨u0, List.mem_singleton.mpr rfl, by rfl⟩,
   (claim_c10 bc0 [] decStr Option.none Option.none "u9" "t0" "alice" "b@x"
      "pw" "2000-01-01" 70 170 []).2 rfl rfl
      (fun d hd => absurd hd (List.not_mem_nil d))⟩
